import Mathlib

/-!
Verification of the P&ID diagram viewer core of this repository:
viewport pan/zoom state, visibility tiling, debounced recomputation,
and SVG overlay composition (`applyPidOverlay`).

Numbers are embedded as exact rationals (`ℚ`); every arithmetic law
proved here is exact, hence holds in particular "within tolerance".
-/

namespace Loto

/-- A bounding box `{x, y, width, height}` (`DOMRect`-shaped values as used
throughout the viewer code). -/
structure Box where
  x : ℚ
  y : ℚ
  width : ℚ
  height : ℚ
deriving DecidableEq, Repr

/-! ## Viewport state

Embeds the pan/zoom state of `PidViewer` (ThemeToggle.tsx, the
`PidViewer` component, lines 253-368) and `PidTiles` (part_003):
`const [scale, setScale] = useState(1); const [translate, setTranslate] = ...`.
-/

/-- The `{scale, translate}` React state of the viewer components. -/
structure ViewportState where
  scale : ℚ
  translateX : ℚ
  translateY : ℚ
deriving DecidableEq, Repr

/-- Embeds `handleWheel` (ThemeToggle.tsx lines 330-346, identically part_003 lines
116-132): `delta = -e.deltaY; zoomFactor = delta > 0 ? 1.1 : 0.9;
newScale = Math.min(Math.max(scale * zoomFactor, 0.1), 10);
translate = offset - (newScale/scale) * (offset - translate)`.
`offsetX`/`offsetY` are the wheel position in container coordinates. -/
def handleWheel (vp : ViewportState) (offsetX offsetY deltaY : ℚ) : ViewportState :=
  let delta := -deltaY
  let zoomFactor : ℚ := if 0 < delta then 1.1 else 0.9
  let newScale := min (max (vp.scale * zoomFactor) 0.1) 10
  let k := newScale / vp.scale
  { scale := newScale
    translateX := offsetX - k * (offsetX - vp.translateX)
    translateY := offsetY - k * (offsetY - vp.translateY) }

/-- Embeds the `handleKey` branch for `+`/`=` (ThemeToggle.tsx lines 362-365):
`setScale((s) => Math.min(s * 1.1, 10))`. -/
def handleKeyPlus (s : ℚ) : ℚ := min (s * 1.1) 10

/-- Embeds the `handleKey` branch for `-` (ThemeToggle.tsx lines 365-367):
`setScale((s) => Math.max(s * 0.9, 0.1))`. -/
def handleKeyMinus (s : ℚ) : ℚ := max (s * 0.9) 0.1

/-- Embeds `resetView` (ThemeToggle.tsx lines 325-328): scale 1, translate (0,0). -/
def resetView : ViewportState := ⟨1, 0, 0⟩

/-- Embeds `onDrag` (ThemeToggle.tsx lines 353-356): sets translate from the mouse
position, leaving scale untouched. -/
def onDrag (vp : ViewportState) (tx ty : ℚ) : ViewportState :=
  { vp with translateX := tx, translateY := ty }

/-- Embeds `fitToScreen` (ThemeToggle.tsx lines 308-323, identically part_003 lines
100-114): `s = min(containerW/w, containerH/h)`, centered translate.
`(x, y, w, h)` is the parsed `viewBox`; `cw, ch` the container client size. -/
def fitToScreen (cw ch x y w h : ℚ) : ViewportState :=
  let s := min (cw / w) (ch / h)
  ⟨s, -x * s + (cw - w * s) / 2, -y * s + (ch - h * s) / 2⟩

/-! Basic clamping facts about the wheel handler. -/

theorem handleWheel_scale_mem (vp : ViewportState) (ox oy dy : ℚ) :
    0.1 ≤ (handleWheel vp ox oy dy).scale ∧ (handleWheel vp ox oy dy).scale ≤ 10 := by
  unfold handleWheel
  exact ⟨le_min (le_max_right _ _) (by norm_num), min_le_right _ _⟩

theorem handleWheel_scale_eq (vp : ViewportState) (ox oy dy : ℚ) :
    (handleWheel vp ox oy dy).scale
      = min (max (vp.scale * (if 0 < -dy then (1.1 : ℚ) else 0.9)) 0.1) 10 := rfl

theorem handleWheel_translateX_eq (vp : ViewportState) (ox oy dy : ℚ) :
    (handleWheel vp ox oy dy).translateX
      = ox - ((handleWheel vp ox oy dy).scale / vp.scale) * (ox - vp.translateX) := rfl

theorem handleWheel_translateY_eq (vp : ViewportState) (ox oy dy : ℚ) :
    (handleWheel vp ox oy dy).translateY
      = oy - ((handleWheel vp ox oy dy).scale / vp.scale) * (oy - vp.translateY) := rfl

/-- C2: for every viewport with scale in [0.1, 10], any wheel position and any
wheel direction, `handleWheel` leaves the document-space point under the wheel
position unchanged: `(p - newTranslate)/newScale = (p - oldTranslate)/oldScale`
on both axes, exactly (hence within any tolerance), including when the new
scale is clamped at a bound. -/
theorem handleWheel_anchor_preserving (s tx ty px py dy : ℚ)
    (hlo : 0.1 ≤ s) (hhi : s ≤ 10) :
    (px - (handleWheel ⟨s, tx, ty⟩ px py dy).translateX) / (handleWheel ⟨s, tx, ty⟩ px py dy).scale
      = (px - tx) / s ∧
    (py - (handleWheel ⟨s, tx, ty⟩ px py dy).translateY) / (handleWheel ⟨s, tx, ty⟩ px py dy).scale
      = (py - ty) / s := by
  have hs : s ≠ 0 := ne_of_gt (lt_of_lt_of_le (by norm_num) hlo)
  have hns : (handleWheel ⟨s, tx, ty⟩ px py dy).scale ≠ 0 :=
    ne_of_gt (lt_of_lt_of_le (by norm_num) (handleWheel_scale_mem ⟨s, tx, ty⟩ px py dy).1)
  constructor
  · rw [handleWheel_translateX_eq]
    field_simp
    ring
  · rw [handleWheel_translateY_eq]
    field_simp
    ring

theorem handleWheel_anchor_preserving_witness :
    (0.1 : ℚ) ≤ 1 ∧ (1 : ℚ) ≤ 10 ∧
    ((3 - (handleWheel ⟨1, 0, 0⟩ 3 4 (-1)).translateX) / (handleWheel ⟨1, 0, 0⟩ 3 4 (-1)).scale
        = (3 - 0) / 1 ∧
      (4 - (handleWheel ⟨1, 0, 0⟩ 3 4 (-1)).translateY) / (handleWheel ⟨1, 0, 0⟩ 3 4 (-1)).scale
        = (4 - 0) / 1) :=
  ⟨by norm_num, by norm_num,
    handleWheel_anchor_preserving 1 0 0 3 4 (-1) (by norm_num) (by norm_num)⟩

/-- C5 counterexample: `fitToScreen` with a zero-sized container (and document
frame `0 0 100 50`) sets the scale to `min(0/100, 0/50) = 0`, which is not
strictly positive and lies outside `[0.1, 10]`, so the claim that every
viewport operation keeps scale in `[0.1, 10]` for every container size
(including zero) is false. -/
theorem fitToScreen_zero_container_scale_cex :
    (fitToScreen 0 0 0 0 100 50).scale = 0 ∧
    ¬ (0.1 ≤ (fitToScreen 0 0 0 0 100 50).scale ∧ (fitToScreen 0 0 0 0 100 50).scale ≤ 10) := by
  constructor
  · show min (0 / 100 : ℚ) (0 / 50) = 0
    norm_num
  · intro h
    have h0 : (fitToScreen 0 0 0 0 100 50).scale = 0 := by
      show min (0 / 100 : ℚ) (0 / 50) = 0
      norm_num
    rw [h0] at h
    exact absurd h.1 (by norm_num)

/-- C5 amended: the clamped operations do keep the scale in `[0.1, 10]`: given
a current scale in `[0.1, 10]`, wheel zoom and keyboard zoom land in
`[0.1, 10]` (they clamp), `resetView` yields scale 1, and dragging (pan)
preserves the scale — but `fitToScreen` performs no clamping at all
(`scale = min(cw/w, ch/h)`), so a zero-sized container yields scale 0
(see the counterexample). -/
theorem viewport_ops_scale_bounded (s tx ty ox oy dy mx my : ℚ)
    (hlo : 0.1 ≤ s) (hhi : s ≤ 10) :
    (0.1 ≤ (handleWheel ⟨s, tx, ty⟩ ox oy dy).scale
      ∧ (handleWheel ⟨s, tx, ty⟩ ox oy dy).scale ≤ 10) ∧
    (0.1 ≤ handleKeyPlus s ∧ handleKeyPlus s ≤ 10) ∧
    (0.1 ≤ handleKeyMinus s ∧ handleKeyMinus s ≤ 10) ∧
    resetView.scale = 1 ∧
    (0.1 ≤ resetView.scale ∧ resetView.scale ≤ 10) ∧
    (onDrag ⟨s, tx, ty⟩ mx my).scale = s := by
  refine ⟨handleWheel_scale_mem _ _ _ _, ⟨?_, ?_⟩, ⟨?_, ?_⟩, rfl, ?_, rfl⟩
  · exact le_min (by linarith) (by norm_num)
  · exact min_le_right _ _
  · exact le_max_right _ _
  · exact max_le (by linarith) (by norm_num)
  · constructor <;> norm_num [resetView]

theorem viewport_ops_scale_bounded_witness :
    (0.1 : ℚ) ≤ 1 ∧ (1 : ℚ) ≤ 10 ∧
    ((0.1 ≤ (handleWheel ⟨1, 5, 6⟩ 2 3 1).scale
        ∧ (handleWheel ⟨1, 5, 6⟩ 2 3 1).scale ≤ 10) ∧
      (0.1 ≤ handleKeyPlus 1 ∧ handleKeyPlus 1 ≤ 10) ∧
      (0.1 ≤ handleKeyMinus 1 ∧ handleKeyMinus 1 ≤ 10) ∧
      resetView.scale = 1 ∧
      (0.1 ≤ resetView.scale ∧ resetView.scale ≤ 10) ∧
      (onDrag ⟨1, 5, 6⟩ 7 8).scale = 1) :=
  ⟨by norm_num, by norm_num,
    viewport_ops_scale_bounded 1 5 6 2 3 1 7 8 (by norm_num) (by norm_num)⟩

/-- C8 counterexample: at scale 1, a zoom-in wheel event (`deltaY = -1`)
multiplies the scale by 1.1, yielding scale 11/10 — not approximately 1/1.1 as
the claim states for zoom-in (the distance to 1/1.1 exceeds 3/20, far outside
any reasonable tolerance); the claim has the two direction factors swapped. -/
theorem handleWheel_zoom_in_factor_cex :
    (handleWheel ⟨1, 0, 0⟩ 0 0 (-1)).scale = 11 / 10 ∧
    3 / 20 < |(handleWheel ⟨1, 0, 0⟩ 0 0 (-1)).scale - 1 / 1.1| := by
  have h : (handleWheel ⟨1, 0, 0⟩ 0 0 (-1)).scale = 11 / 10 := by
    rw [handleWheel_scale_eq]
    norm_num
  rw [h]
  rw [abs_of_pos (by norm_num)]
  norm_num

/-- C8 amended: for every starting scale in [0.1, 10], the wheel handler
multiplies the scale by 1.1 for zoom-in (`deltaY < 0`) and by 0.9 for zoom-out
(`deltaY ≥ 0`) — 0.9 being within 1/100 of 1/1.1 — and clamps the result to
`[0.1, 10]` (the claim as stated assigns the ≈1/1.1 factor to zoom-in and the
1.1 factor to zoom-out, which is swapped relative to the code). -/
theorem handleWheel_scale_factor (s tx ty ox oy dy : ℚ)
    (hlo : 0.1 ≤ s) (hhi : s ≤ 10) :
    (dy < 0 → (handleWheel ⟨s, tx, ty⟩ ox oy dy).scale = min (max (s * 1.1) 0.1) 10) ∧
    (0 ≤ dy → (handleWheel ⟨s, tx, ty⟩ ox oy dy).scale = min (max (s * 0.9) 0.1) 10) ∧
    |(0.9 : ℚ) - 1 / 1.1| < 1 / 100 ∧
    0.1 ≤ (handleWheel ⟨s, tx, ty⟩ ox oy dy).scale ∧
    (handleWheel ⟨s, tx, ty⟩ ox oy dy).scale ≤ 10 := by
  refine ⟨?_, ?_, ?_, handleWheel_scale_mem _ _ _ _⟩
  · intro hdy
    rw [handleWheel_scale_eq]
    rw [if_pos (by linarith : (0 : ℚ) < -dy)]
  · intro hdy
    rw [handleWheel_scale_eq]
    rw [if_neg (by simp; linarith : ¬ (0 : ℚ) < -dy)]
  · rw [abs_of_neg (by norm_num)]
    norm_num

theorem handleWheel_scale_factor_witness :
    (0.1 : ℚ) ≤ 2 ∧ (2 : ℚ) ≤ 10 ∧
    (((-3 : ℚ) < 0 → (handleWheel ⟨2, 0, 0⟩ 0 0 (-3)).scale = min (max (2 * 1.1) 0.1) 10) ∧
      ((0 : ℚ) ≤ (-3 : ℚ) → (handleWheel ⟨2, 0, 0⟩ 0 0 (-3)).scale = min (max (2 * 0.9) 0.1) 10) ∧
      |(0.9 : ℚ) - 1 / 1.1| < 1 / 100 ∧
      0.1 ≤ (handleWheel ⟨2, 0, 0⟩ 0 0 (-3)).scale ∧
      (handleWheel ⟨2, 0, 0⟩ 0 0 (-3)).scale ≤ 10) :=
  ⟨by norm_num, by norm_num,
    handleWheel_scale_factor 2 0 0 0 0 (-3) (by norm_num) (by norm_num)⟩

/-! ## Visibility tiler (`PidTiles`, part_003) -/

/-- One entry of `elementsRef.current` (part_003 lines 12-15 and 41-51): an
SVG graphics element together with its measured bounding box; the element
itself is abstracted to a numeric identity, since `updateTiles` only clones
it unchanged. -/
structure ElementEntry where
  eid : ℕ
  bbox : Box
deriving DecidableEq, Repr

/-- The skip test of `updateTiles` (part_003 line 85):
`bbox.x > right || bbox.y > bottom || bbox.x + bbox.width < viewX ||
bbox.y + bbox.height < viewY`. -/
def outsideView (viewX viewY right bottom : ℚ) (en : ElementEntry) : Bool :=
  decide (en.bbox.x > right) || decide (en.bbox.y > bottom) ||
    decide (en.bbox.x + en.bbox.width < viewX) ||
    decide (en.bbox.y + en.bbox.height < viewY)

/-- Embeds `updateTiles` (part_003 lines 70-92): computes the visible document-space
rectangle `viewX = -tx/s`, `viewY = -ty/s`, `viewW = cw/s`, `viewH = ch/s`
and appends to the viewport, in original order, exactly the entries that do
not satisfy the skip test. The returned list is the sequence of appended
clones. -/
def updateTiles (entries : List ElementEntry) (vp : ViewportState) (cw ch : ℚ) :
    List ElementEntry :=
  let viewX := -vp.translateX / vp.scale
  let viewY := -vp.translateY / vp.scale
  let viewW := cw / vp.scale
  let viewH := ch / vp.scale
  let right := viewX + viewW
  let bottom := viewY + viewH
  entries.filter (fun en => ! outsideView viewX viewY right bottom en)

/-- The standard closed axis-aligned overlap test between a box and the
rectangle with origin `(rx, ry)` and size `(rw, rh)`: the boxes, taken as
closed rectangles, intersect. -/
def overlapsRect (b : Box) (rx ry rw rh : ℚ) : Prop :=
  b.x ≤ rx + rw ∧ rx ≤ b.x + b.width ∧ b.y ≤ ry + rh ∧ ry ≤ b.y + b.height

instance (b : Box) (rx ry rw rh : ℚ) : Decidable (overlapsRect b rx ry rw rh) := by
  unfold overlapsRect
  infer_instance

/-- A box, taken as a closed rectangle, contains the point `(qx, qy)`. -/
def containsPoint (b : Box) (qx qy : ℚ) : Prop :=
  b.x ≤ qx ∧ qx ≤ b.x + b.width ∧ b.y ≤ qy ∧ qy ≤ b.y + b.height

instance (b : Box) (qx qy : ℚ) : Decidable (containsPoint b qx qy) := by
  unfold containsPoint
  infer_instance

theorem not_outsideView_eq_overlaps (b : ElementEntry) (vx vy vw vh : ℚ) :
    (! outsideView vx vy (vx + vw) (vy + vh) b) = decide (overlapsRect b.bbox vx vy vw vh) := by
  rw [Bool.eq_iff_iff]
  simp only [outsideView, overlapsRect, Bool.not_eq_true', Bool.or_eq_false_iff,
    decide_eq_false_iff_not, decide_eq_true_eq, not_lt, gt_iff_lt]
  tauto

theorem updateTiles_eq_filter (entries : List ElementEntry) (vp : ViewportState)
    (cw ch : ℚ) :
    updateTiles entries vp cw ch
      = entries.filter (fun en => decide (overlapsRect en.bbox
          (-vp.translateX / vp.scale) (-vp.translateY / vp.scale)
          (cw / vp.scale) (ch / vp.scale))) := by
  unfold updateTiles
  exact List.filter_congr (fun en _ => not_outsideView_eq_overlaps en _ _ _ _)

/-- C4: for every element index, every viewport with positive scale, and every
container with both dimensions positive, `updateTiles` keeps exactly the
entries whose bounding box overlaps the rectangle with origin
`(-translateX/scale, -translateY/scale)` and size
`(containerW/scale, containerH/scale)` — it equals the filter of the index by
the standard closed overlap test, so there are no false positives or
negatives, and the original document order is preserved (the result is a
sublist of the index). -/
theorem updateTiles_exact (entries : List ElementEntry) (vp : ViewportState)
    (cw ch : ℚ) (hcw : 0 < cw) (hch : 0 < ch) :
    updateTiles entries vp cw ch
      = entries.filter (fun en => decide (overlapsRect en.bbox
          (-vp.translateX / vp.scale) (-vp.translateY / vp.scale)
          (cw / vp.scale) (ch / vp.scale))) ∧
    List.Sublist (updateTiles entries vp cw ch) entries := by
  refine ⟨updateTiles_eq_filter entries vp cw ch, ?_⟩
  rw [updateTiles_eq_filter entries vp cw ch]
  exact List.filter_sublist entries

theorem updateTiles_exact_witness :
    (0 : ℚ) < 50 ∧ (0 : ℚ) < 40 ∧
    (updateTiles [⟨0, ⟨0, 0, 10, 10⟩⟩, ⟨1, ⟨100, 100, 5, 5⟩⟩] ⟨1, 0, 0⟩ 50 40
        = List.filter (fun en => decide (overlapsRect en.bbox
            (-(0 : ℚ) / 1) (-(0 : ℚ) / 1) (50 / 1) (40 / 1)))
            [⟨0, ⟨0, 0, 10, 10⟩⟩, ⟨1, ⟨100, 100, 5, 5⟩⟩] ∧
      List.Sublist (updateTiles [⟨0, ⟨0, 0, 10, 10⟩⟩, ⟨1, ⟨100, 100, 5, 5⟩⟩] ⟨1, 0, 0⟩ 50 40)
        [⟨0, ⟨0, 0, 10, 10⟩⟩, ⟨1, ⟨100, 100, 5, 5⟩⟩]) :=
  ⟨by norm_num, by norm_num,
    updateTiles_exact [⟨0, ⟨0, 0, 10, 10⟩⟩, ⟨1, ⟨100, 100, 5, 5⟩⟩] ⟨1, 0, 0⟩ 50 40
      (by norm_num) (by norm_num)⟩

/-- C9 counterexample: with a container of zero width and zero height, an
index holding one element with box `{0, 0, 10, 10}` and an identity viewport,
`updateTiles` keeps that element (its closed box contains the view-origin
point `(0, 0)`), so the tile is not empty, contradicting the claim that a
zero-sized container always yields an empty tile. -/
theorem updateTiles_zero_container_cex :
    updateTiles [⟨0, ⟨0, 0, 10, 10⟩⟩] ⟨1, 0, 0⟩ 0 0 = [⟨0, ⟨0, 0, 10, 10⟩⟩] ∧
    updateTiles [⟨0, ⟨0, 0, 10, 10⟩⟩] ⟨1, 0, 0⟩ 0 0 ≠ [] := by
  have h : updateTiles [⟨0, ⟨0, 0, 10, 10⟩⟩] ⟨1, 0, 0⟩ 0 0 = [⟨0, ⟨0, 0, 10, 10⟩⟩] := by
    unfold updateTiles outsideView
    norm_num [List.filter]
  exact ⟨h, by rw [h]; simp⟩

/-- C9 amended: a zero-sized container never raises an error — `updateTiles`
is total and yields the (order-preserving) sub-list of entries whose closed
bounding box contains the single view-origin point
`(-translateX/scale, -translateY/scale)`; the tile is empty exactly when no
indexed box contains that point, but it is not empty in general. -/
theorem updateTiles_zero_container (entries : List ElementEntry) (vp : ViewportState) :
    updateTiles entries vp 0 0
      = entries.filter (fun en => decide (containsPoint en.bbox
          (-vp.translateX / vp.scale) (-vp.translateY / vp.scale))) ∧
    List.Sublist (updateTiles entries vp 0 0) entries := by
  have h : updateTiles entries vp 0 0
      = entries.filter (fun en => decide (containsPoint en.bbox
          (-vp.translateX / vp.scale) (-vp.translateY / vp.scale))) := by
    rw [updateTiles_eq_filter entries vp 0 0]
    apply List.filter_congr
    intro en _
    rw [decide_eq_decide]
    unfold overlapsRect containsPoint
    norm_num
  refine ⟨h, ?_⟩
  rw [h]
  exact List.filter_sublist entries

/-! ## Debounced tile recomputation (part_003 lines 17 and 61-68)

`scheduleUpdate` holds a single timer handle: `if (debounceTimer.current)
clearTimeout(debounceTimer.current); debounceTimer.current =
window.setTimeout(updateTiles, DEBOUNCE_MS)`. The single-threaded event loop
is embedded as explicit clock advancement: a timer runs once the clock
reaches its deadline, and a viewport-change event replaces the pending
timer with one due a full window later. -/

/-- The debounce window: `DEBOUNCE_MS = 50` (part_003 line 17). -/
def DEBOUNCE_MS : ℕ := 50

/-- The scheduler state: the single pending timer deadline (if any) and the
times at which `updateTiles` has run so far. -/
structure DebounceState where
  pending : Option ℕ
  fired : List ℕ
deriving DecidableEq, Repr

/-- Advance the clock to time `t`: a pending timer whose deadline `d ≤ t` has
run `updateTiles` at time `d` and cleared itself. -/
def advanceTo (st : DebounceState) (t : ℕ) : DebounceState :=
  match st.pending with
  | some d => if d ≤ t then ⟨none, st.fired ++ [d]⟩ else st
  | none => st

/-- A viewport-change event at time `t`: any timer already due has run, then
`scheduleUpdate` cancels the pending timer and starts a fresh one due at
`t + DEBOUNCE_MS`. -/
def viewportEvent (st : DebounceState) (t : ℕ) : DebounceState :=
  let stAdv := advanceTo st t
  ⟨some (t + DEBOUNCE_MS), stAdv.fired⟩

/-- Run a burst of viewport-change events at the given times starting idle,
then let the clock advance past any remaining deadline (the burst settles). -/
def runBurst (times : List ℕ) : DebounceState :=
  let final := times.foldl viewportEvent ⟨none, []⟩
  match final.pending with
  | some d => ⟨none, final.fired ++ [d]⟩
  | none => final

theorem foldl_viewportEvent_burst (rest : List ℕ) (t0 : ℕ) (acc : List ℕ)
    (hc : List.Chain' (fun a b => a ≤ b ∧ b < a + DEBOUNCE_MS) (t0 :: rest)) :
    rest.foldl viewportEvent ⟨some (t0 + DEBOUNCE_MS), acc⟩
      = ⟨some ((t0 :: rest).getLast (by simp) + DEBOUNCE_MS), acc⟩ := by
  induction rest generalizing t0 with
  | nil => simp [List.getLast]
  | cons t1 rest ih =>
    have h01 : t0 ≤ t1 ∧ t1 < t0 + DEBOUNCE_MS := (List.chain'_cons.mp hc).1
    have hc1 : List.Chain' (fun a b => a ≤ b ∧ b < a + DEBOUNCE_MS) (t1 :: rest) :=
      (List.chain'_cons.mp hc).2
    have hstep : viewportEvent ⟨some (t0 + DEBOUNCE_MS), acc⟩ t1
        = ⟨some (t1 + DEBOUNCE_MS), acc⟩ := by
      unfold viewportEvent advanceTo
      simp [Nat.not_le.mpr h01.2]
    rw [List.foldl_cons, hstep, ih t1 hc1]
    simp [List.getLast_cons]

theorem chain_le_getLast (l : List ℕ) (hne : l ≠ [])
    (hc : List.Chain' (fun a b => a ≤ b ∧ b < a + DEBOUNCE_MS) l) :
    ∀ t ∈ l, t ≤ l.getLast hne := by
  induction l with
  | nil => simp at hne
  | cons a l ih =>
    intro t ht
    cases l with
    | nil =>
      simp at ht
      simp [ht, List.getLast]
    | cons b l2 =>
      have hab : a ≤ b := (List.chain'_cons.mp hc).1.1
      have hc1 : List.Chain' (fun a b => a ≤ b ∧ b < a + DEBOUNCE_MS) (b :: l2) :=
        (List.chain'_cons.mp hc).2
      have hb : b ≤ (b :: l2).getLast (by simp) := ih (by simp) hc1 b (by simp)
      rw [List.getLast_cons (by simp : (b :: l2) ≠ [])]
      rcases List.mem_cons.mp ht with h | h
      · exact h ▸ le_trans hab hb
      · exact ih (by simp) hc1 t h

/-- C7: for every burst of K ≥ 1 viewport-change events whose consecutive
times are each less than `DEBOUNCE_MS = 50` apart, exactly one tile
recomputation runs (the fired list has length 1, never K), it runs at the
last event time plus the debounce window — strictly after every event of the
burst — and each new trigger merely cancels and restarts the single pending
timer. -/
theorem debounce_single_fire (t0 : ℕ) (rest : List ℕ)
    (hc : List.Chain' (fun a b => a ≤ b ∧ b < a + DEBOUNCE_MS) (t0 :: rest)) :
    (runBurst (t0 :: rest)).fired
        = [(t0 :: rest).getLast (by simp) + DEBOUNCE_MS] ∧
    (runBurst (t0 :: rest)).fired.length = 1 ∧
    ∀ t ∈ t0 :: rest, ∀ f ∈ (runBurst (t0 :: rest)).fired, t < f := by
  have hfold : (t0 :: rest).foldl viewportEvent ⟨none, []⟩
      = ⟨some ((t0 :: rest).getLast (by simp) + DEBOUNCE_MS), []⟩ := by
    rw [List.foldl_cons]
    have hfirst : viewportEvent ⟨none, []⟩ t0 = ⟨some (t0 + DEBOUNCE_MS), []⟩ := rfl
    rw [hfirst]
    exact foldl_viewportEvent_burst rest t0 [] hc
  have hrun : runBurst (t0 :: rest)
      = ⟨none, [(t0 :: rest).getLast (by simp) + DEBOUNCE_MS]⟩ := by
    unfold runBurst
    rw [hfold]
    rfl
  refine ⟨by rw [hrun], by rw [hrun]; rfl, ?_⟩

  intro t ht f hf
  rw [hrun] at hf
  simp at hf
  have := chain_le_getLast (t0 :: rest) (by simp) hc t ht
  have hpos : 0 < DEBOUNCE_MS := by decide
  omega

theorem debounce_single_fire_witness :
    List.Chain' (fun a b => a ≤ b ∧ b < a + DEBOUNCE_MS) [3, 10, 40] ∧
    (runBurst [3, 10, 40]).fired = [90] ∧
    (runBurst [3, 10, 40]).fired.length = 1 ∧
    ∀ t ∈ [3, 10, 40], ∀ f ∈ (runBurst [3, 10, 40]).fired, t < f := by
  have hc : List.Chain' (fun a b => a ≤ b ∧ b < a + DEBOUNCE_MS) [3, 10, 40] :=
    List.Chain.cons ⟨by norm_num, by norm_num [DEBOUNCE_MS]⟩
      (List.Chain.cons ⟨by norm_num, by norm_num [DEBOUNCE_MS]⟩ List.Chain.nil)
  have h := debounce_single_fire 3 [10, 40] hc
  refine ⟨hc, ?_, h.2.1, h.2.2⟩
  rw [h.1]
  rfl

/-! ## Overlay compositor (`applyPidOverlay`, pidOverlay.ts lines 24-59) -/

/-- A CSS selector as used by the overlay data: id-style (`#id`) or
class-style (`.class`); the code passes them verbatim to `querySelector` /
`querySelectorAll`. -/
inductive Selector
  | idSel (s : String)
  | classSel (s : String)
deriving DecidableEq, Repr

/-- The outcome of calling `getBBox()` on an element: a measured box, or a
throw (caught by pidOverlay.ts lines 40-44). -/
inductive BBoxResult
  | ok (b : Box)
  | thrown
deriving DecidableEq, Repr

/-- An SVG diagram element as observed by `applyPidOverlay`: its `id`
attribute, its class list, and the behavior of `getBBox()` on it, matching
`try { bbox = target.getBBox() } catch { ... }` (pidOverlay.ts
lines 40-44). -/
structure SvgElem where
  eid : Option String
  classes : List String
  bboxResult : BBoxResult
deriving DecidableEq, Repr

/-- Whether `sel` matches `e`: the semantics of membership in
`svg.querySelectorAll(sel)` over diagram elements. -/
def selMatches (sel : Selector) (e : SvgElem) : Bool :=
  match sel with
  | .idSel s => e.eid == some s
  | .classSel s => e.classes.contains s

/-- A rendered badge: the `foreignObject` box (pidOverlay.ts lines 46-50)
and the text content of its `div.pid-badge`, which is the badge `type`
(lines 52-54). -/
structure BadgeFO where
  box : Box
  label : String
deriving DecidableEq, Repr

/-- The mounted SVG as far as `applyPidOverlay` reads and mutates it: the
diagram elements in document order, and the `data-badge-layer` groups
appended after them, each holding its rendered badges in order. -/
structure SvgState where
  elems : List SvgElem
  badgeLayers : List (List BadgeFO)
deriving DecidableEq, Repr

/-- The `Badge` interface (pidOverlay.ts lines 1-4): `{selector, type}`. -/
structure Badge where
  selector : Selector
  type : String
deriving DecidableEq, Repr

/-- The `OverlayPath` interface (pidOverlay.ts lines 6-9). -/
structure OverlayPath where
  id : String
  selectors : List Selector
deriving DecidableEq, Repr

/-- The `Overlay` interface (pidOverlay.ts lines 11-15): `highlight`,
`badges`, `paths`. Note the source interface has no `warnings` field. -/
structure Overlay where
  highlight : List Selector
  badges : List Badge
  paths : List OverlayPath
deriving DecidableEq, Repr

/-- Models `el.classList.add(cls)`: a class list is a set, so adding an
already-present token is a no-op. -/
def classListAdd (cls : String) (e : SvgElem) : SvgElem :=
  if e.classes.contains cls then e else { e with classes := e.classes ++ [cls] }

/-- One highlight selector (pidOverlay.ts lines 25-29): every matching
element — zero, one, or many — receives the `hl-primary` class. -/
def highlightOne (sel : Selector) (elems : List SvgElem) : List SvgElem :=
  elems.map (fun e => if selMatches sel e then classListAdd "hl-primary" e else e)

/-- The full `overlay.highlight.forEach(...)` loop (pidOverlay.ts
lines 25-29), applied selector by selector in order. -/
def applyHighlights (sels : List Selector) (elems : List SvgElem) : List SvgElem :=
  sels.foldl (fun acc sel => highlightOne sel acc) elems

/-- Models `try { bbox = target.getBBox() } catch { bbox = { x: 0, y: 0,
width: 0, height: 0 } }` (pidOverlay.ts lines 39-44). -/
def bboxOrZero (e : SvgElem) : Box :=
  match e.bboxResult with
  | .ok b => b
  | .thrown => ⟨0, 0, 0, 0⟩

/-- One badge (pidOverlay.ts lines 35-57): `svg.querySelector(selector)`
resolves the first matching element in document order; if there is none the
badge is skipped (`if (!target) return`); otherwise a `foreignObject` holding
a `div.pid-badge` labeled by the badge `type` is created with the (possibly
defaulted) box. -/
def makeBadge (elems : List SvgElem) (b : Badge) : Option BadgeFO :=
  match elems.find? (fun e => selMatches b.selector e) with
  | none => none
  | some target => some ⟨bboxOrZero target, b.type⟩

/-- The contents of the badge layer after the `overlay.badges.forEach(...)`
loop (pidOverlay.ts lines 35-58). -/
def buildBadgeLayer (elems : List SvgElem) (badges : List Badge) : List BadgeFO :=
  badges.filterMap (makeBadge elems)

/-- Embeds `applyPidOverlay` (pidOverlay.ts lines 24-59): adds `hl-primary`
to every element matching a `highlight` selector, appends one fresh
`data-badge-layer` group after all existing content, and fills it with one
badge per `badges` entry whose selector matches a diagram element. The
source function returns `void`; the model returns the mutated SVG, which is
the function's entire observable effect — in particular nothing else (no
warnings list) is produced. `overlay.paths` is never read by the source.
Badge target lookup is modelled over the diagram elements (the badge
`foreignObject`s themselves are not candidate targets). -/
def applyPidOverlay (svg : SvgState) (o : Overlay) : SvgState :=
  let elems := applyHighlights o.highlight svg.elems
  ⟨elems, svg.badgeLayers ++ [buildBadgeLayer elems o.badges]⟩

/-- Models the clearing the caller `PidTab` performs before each overlay
application (part_031 lines 73-74):
`svg.querySelectorAll('.hl-primary').forEach((el) =>
el.classList.remove('hl-primary'))` for one element. -/
def clearElem (e : SvgElem) : SvgElem :=
  { e with classes := e.classes.filter (fun c => c != "hl-primary") }

/-- Models both clearing statements of `PidTab` (part_031 lines 73-74):
remove the `hl-primary` class everywhere and remove every
`[data-badge-layer]` group. -/
def clearOverlayState (svg : SvgState) : SvgState :=
  ⟨svg.elems.map clearElem, []⟩

/-- A one-element scene `#a` with no classes. -/
def svgA : SvgState := ⟨[⟨some "a", [], .ok ⟨0, 0, 1, 1⟩⟩], []⟩

/-- An overlay highlighting `#a`, with no badges and no paths. -/
def overlayA : Overlay := ⟨[.idSel "a"], [], []⟩

/-- C1 counterexample: `applyPidOverlay` clears nothing — each call appends a
fresh badge layer, so two consecutive calls with the same overlay leave two
`data-badge-layer` groups where a single call leaves one, and the resulting
annotation states differ. -/
theorem applyPidOverlay_not_idempotent_cex :
    applyPidOverlay (applyPidOverlay svgA overlayA) overlayA ≠ applyPidOverlay svgA overlayA ∧
    (applyPidOverlay (applyPidOverlay svgA overlayA) overlayA).badgeLayers.length = 2 ∧
    (applyPidOverlay svgA overlayA).badgeLayers.length = 1 := by
  have h1 : (applyPidOverlay svgA overlayA).badgeLayers.length = 1 := rfl
  have h2 : (applyPidOverlay (applyPidOverlay svgA overlayA) overlayA).badgeLayers.length = 2 :=
    rfl
  refine ⟨fun h => ?_, h2, h1⟩
  rw [h] at h2
  exact absurd (h1.symm.trans h2) (by decide)

theorem clearElem_classListAdd (e : SvgElem) :
    clearElem (classListAdd "hl-primary" e) = clearElem e := by
  unfold classListAdd clearElem
  by_cases h : e.classes.contains "hl-primary"
  · rw [if_pos h]
  · rw [if_neg h]
    simp [List.filter_append]

theorem map_clearElem_highlightOne (sel : Selector) (elems : List SvgElem) :
    (highlightOne sel elems).map clearElem = elems.map clearElem := by
  unfold highlightOne
  rw [List.map_map]
  apply List.map_congr_left
  intro e _
  by_cases h : selMatches sel e
  · simp [h, clearElem_classListAdd]
  · simp [h]

theorem map_clearElem_applyHighlights (sels : List Selector) (elems : List SvgElem) :
    (applyHighlights sels elems).map clearElem = elems.map clearElem := by
  induction sels generalizing elems with
  | nil => rfl
  | cons sel sels ih =>
    unfold applyHighlights
    rw [List.foldl_cons]
    have := ih (highlightOne sel elems)
    unfold applyHighlights at this
    rw [this, map_clearElem_highlightOne]

theorem clearOverlayState_applyPidOverlay (svg : SvgState) (o : Overlay) :
    clearOverlayState (applyPidOverlay svg o) = clearOverlayState svg := by
  unfold clearOverlayState applyPidOverlay
  simp [map_clearElem_applyHighlights]

theorem clearElem_clearElem (e : SvgElem) : clearElem (clearElem e) = clearElem e := by
  unfold clearElem
  simp [List.filter_filter]

theorem clearOverlayState_clearOverlayState (svg : SvgState) :
    clearOverlayState (clearOverlayState svg) = clearOverlayState svg := by
  unfold clearOverlayState
  simp only [List.map_map, SvgState.mk.injEq, and_true]
  apply List.map_congr_left
  intro e _
  exact clearElem_clearElem e

/-- C1 amended: `applyPidOverlay` itself clears nothing and is not idempotent
(see the counterexample: repeated calls stack badge layers); the clearing of
previously-applied overlay state (removing `hl-primary` markers and every
inserted badge layer) is performed by the caller `PidTab` before every call,
and that clear-then-apply sequence is idempotent: clearing and applying the
same overlay twice yields exactly the state of a single clear-then-apply,
with no duplicated highlight markers or badge layers. -/
theorem clear_then_apply_idempotent (svg : SvgState) (o : Overlay) :
    applyPidOverlay (clearOverlayState (applyPidOverlay (clearOverlayState svg) o)) o
      = applyPidOverlay (clearOverlayState svg) o := by
  rw [clearOverlayState_applyPidOverlay, clearOverlayState_clearOverlayState]

/-- Modelled from the spec: the deduplicated, first-occurrence-order warnings
list that `applyOverlay` is specified to build and return to the caller
(spec 4.5 step 4). No counterpart exists in the source: the `Overlay`
interface (pidOverlay.ts lines 11-15) has no `warnings` field and
`applyPidOverlay` returns `void`. -/
def dedupFirstOccurrence (ws : List String) : List String :=
  ws.foldl (fun acc w => if acc.contains w then acc else acc ++ [w]) []

/-- C6 (code bug): evaluating the source at the repository's own test input
(pidOverlay.test.ts lines 41-52, an empty scene) shows `applyPidOverlay`
produces only the mutated SVG — an empty element list plus one empty badge
layer — and returns no warnings list at all, while the repository's test and
the caller `PidTab` (part_031 lines 82-88) expect the call to accept a
`warnings` field and return `['missing tag', 'unmapped']`; the intended
first-occurrence deduplication is stated alongside. -/
theorem applyPidOverlay_no_warnings_output :
    applyPidOverlay ⟨[], []⟩ ⟨[], [], []⟩ = ⟨[], [[]]⟩ ∧
    dedupFirstOccurrence ["missing tag", "missing tag", "unmapped"]
      = ["missing tag", "unmapped"] ∧
    dedupFirstOccurrence ["w1", "w1", "w2"] = ["w1", "w2"] :=
  ⟨rfl, rfl, rfl⟩

/-- C10: during badge placement, a target whose `getBBox` throws does not
cause the badge to be skipped: the badge is still created, positioned with
the degenerate box at the document origin and labeled by the badge `type`;
a badge is omitted exactly when its selector matches no element. -/
theorem badge_on_getBBox_throw (svg : SvgState) (o : Overlay) (b : Badge)
    (hb : o.badges = [b]) :
    (∀ e, (applyHighlights o.highlight svg.elems).find? (fun x => selMatches b.selector x)
          = some e →
        e.bboxResult = .thrown →
        (applyPidOverlay svg o).badgeLayers.getLast? = some [⟨⟨0, 0, 0, 0⟩, b.type⟩]) ∧
    ((applyHighlights o.highlight svg.elems).find? (fun x => selMatches b.selector x) = none →
        (applyPidOverlay svg o).badgeLayers.getLast? = some []) := by
  constructor
  · intro e hfind herr
    have hmb : makeBadge (applyHighlights o.highlight svg.elems) b
        = some ⟨⟨0, 0, 0, 0⟩, b.type⟩ := by
      unfold makeBadge
      rw [hfind]
      simp [bboxOrZero, herr]
    have hlayer : buildBadgeLayer (applyHighlights o.highlight svg.elems) o.badges
        = [⟨⟨0, 0, 0, 0⟩, b.type⟩] := by
      rw [hb]
      unfold buildBadgeLayer
      rw [List.filterMap_cons, hmb]
      rfl
    show (svg.badgeLayers ++ [buildBadgeLayer (applyHighlights o.highlight svg.elems)
        o.badges]).getLast? = _
    rw [List.getLast?_concat, hlayer]
  · intro hfind
    have hmb : makeBadge (applyHighlights o.highlight svg.elems) b = none := by
      unfold makeBadge
      rw [hfind]
    have hlayer : buildBadgeLayer (applyHighlights o.highlight svg.elems) o.badges = [] := by
      rw [hb]
      unfold buildBadgeLayer
      rw [List.filterMap_cons, hmb]
      rfl
    show (svg.badgeLayers ++ [buildBadgeLayer (applyHighlights o.highlight svg.elems)
        o.badges]).getLast? = _
    rw [List.getLast?_concat, hlayer]

theorem badge_on_getBBox_throw_witness :
    (Overlay.badges ⟨[], [⟨.idSel "x", "asset"⟩], []⟩ = [⟨.idSel "x", "asset"⟩]) ∧
    ((∀ e, (applyHighlights (Overlay.highlight ⟨[], [⟨.idSel "x", "asset"⟩], []⟩)
            (SvgState.elems ⟨[⟨some "x", [], .thrown⟩], []⟩)).find?
              (fun x => selMatches (Badge.selector ⟨.idSel "x", "asset"⟩) x) = some e →
        e.bboxResult = .thrown →
        (applyPidOverlay ⟨[⟨some "x", [], .thrown⟩], []⟩
            ⟨[], [⟨.idSel "x", "asset"⟩], []⟩).badgeLayers.getLast?
          = some [⟨⟨0, 0, 0, 0⟩, Badge.type ⟨.idSel "x", "asset"⟩⟩]) ∧
      ((applyHighlights (Overlay.highlight ⟨[], [⟨.idSel "x", "asset"⟩], []⟩)
            (SvgState.elems ⟨[⟨some "x", [], .thrown⟩], []⟩)).find?
              (fun x => selMatches (Badge.selector ⟨.idSel "x", "asset"⟩) x) = none →
        (applyPidOverlay ⟨[⟨some "x", [], .thrown⟩], []⟩
            ⟨[], [⟨.idSel "x", "asset"⟩], []⟩).badgeLayers.getLast? = some [])) :=
  ⟨rfl, badge_on_getBBox_throw ⟨[⟨some "x", [], .thrown⟩], []⟩
    ⟨[], [⟨.idSel "x", "asset"⟩], []⟩ ⟨.idSel "x", "asset"⟩ rfl⟩

/-! ## Badge geometry under nested transforms (pidOverlay.ts lines 35-50)

The badge loop reads `target.getBBox()` and writes that box verbatim onto
the badge `foreignObject`; the badge layer is appended directly under the
SVG root with no transform of its own. `getBBox()` reports the element's
box in its own local user space — ancestor transforms are not applied
(DOM semantics). So the badge's root-space box is the target's local box,
whatever transforms its ancestors carry. -/

/-- An axis-aligned affine transform (per-axis scale and translate), enough
for SVG `scale(k)` and `translate(dx dy)` chains as in the repository's
nested-group fixtures. -/
structure Affine where
  a : ℚ
  d : ℚ
  e : ℚ
  f : ℚ
deriving DecidableEq, Repr

/-- Applies the transform to a box: `x` to `a*x + e`, `y` to `d*y + f`. -/
def Affine.applyBox (t : Affine) (b : Box) : Box :=
  ⟨t.a * b.x + t.e, t.d * b.y + t.f, t.a * b.width, t.d * b.height⟩

/-- SVG `scale(k)`. -/
def scaleT (k : ℚ) : Affine := ⟨k, k, 0, 0⟩

/-- SVG `translate(dx dy)`. -/
def translateT (dx dy : ℚ) : Affine := ⟨1, 1, dx, dy⟩

/-- A nested SVG scene: groups carrying a transform, and leaf graphics
elements with an id and the box their `getBBox()` reports (their local
user-space box). -/
inductive SvgNode
  | group (t : Affine) (children : List SvgNode)
  | el (eid : String) (localBox : Box)

mutual

/-- Document-order lookup of the first element with the given id, returning
its local `getBBox()` box — ancestor transforms do not affect the value
(DOM `getBBox` semantics). -/
def findLocalBox : SvgNode → String → Option Box
  | .el i b, target => if i = target then some b else none
  | .group _ cs, target => findLocalBoxInList cs target

/-- Document-order lookup over a child list. -/
def findLocalBoxInList : List SvgNode → String → Option Box
  | [], _ => none
  | n :: ns, target =>
    match findLocalBox n target with
    | some b => some b
    | none => findLocalBoxInList ns target

end

/-- The root-space box of the badge that `applyPidOverlay` places for a badge
targeting the given id (pidOverlay.ts lines 36-50): the target's `getBBox()`
box, written verbatim onto a `foreignObject` inside the untransformed root
badge layer. -/
def codeBadgeBox (root : SvgNode) (target : String) : Option Box :=
  findLocalBox root target

mutual

/-- Modelled from the spec (4.2 Transform Resolver, absent from the source):
resolve the target's box into root coordinates by composing the ancestor
transform chain innermost-first — the element's own frame first, then each
ancestor outward. Stated for comparison with `codeBadgeBox`. -/
def resolvedRootBox : SvgNode → String → Option Box
  | .el i b, target => if i = target then some b else none
  | .group t cs, target => (resolvedRootBoxInList cs target).map t.applyBox

/-- Resolution over a child list, first match in document order. -/
def resolvedRootBoxInList : List SvgNode → String → Option Box
  | [], _ => none
  | n :: ns, target =>
    match resolvedRootBox n target with
    | some b => some b
    | none => resolvedRootBoxInList ns target

end

/-- The claim's scenario: a target with local box `{5, 5, 20, 10}` nested
inside `scale(2)` inside `translate(10 5)` (also the shape of the
repository's nested-group test fixture). -/
def scenarioScene : SvgNode :=
  .group (translateT 10 5) [.group (scaleT 2) [.el "t" ⟨5, 5, 20, 10⟩]]

/-- C3 counterexample: in the scenario the badge is positioned at the
target's local box `{5, 5, 20, 10}` — not at the transform-composed
root-space box `{20, 15, 40, 20}` the claim requires (which is what the
spec-modelled resolver yields): the code composes no ancestor transforms. -/
theorem codeBadgeBox_scenario_cex :
    codeBadgeBox scenarioScene "t" = some ⟨5, 5, 20, 10⟩ ∧
    resolvedRootBox scenarioScene "t" = some ⟨20, 15, 40, 20⟩ ∧
    codeBadgeBox scenarioScene "t" ≠ some ⟨20, 15, 40, 20⟩ := by
  have h1 : codeBadgeBox scenarioScene "t" = some ⟨5, 5, 20, 10⟩ := by
    unfold codeBadgeBox scenarioScene
    unfold findLocalBox findLocalBoxInList
    simp [findLocalBox, findLocalBoxInList]
  have h2 : resolvedRootBox scenarioScene "t" = some ⟨20, 15, 40, 20⟩ := by
    unfold scenarioScene
    unfold resolvedRootBox resolvedRootBoxInList
    simp [resolvedRootBox, resolvedRootBoxInList, translateT, scaleT, Affine.applyBox]
    norm_num [Box.mk.injEq]
  refine ⟨h1, h2, fun h => ?_⟩
  rw [h1] at h
  norm_num [Box.mk.injEq] at h

/-- C3 amended: badge placement performs no ancestor-transform composition —
wrapping the target scene in any transformed group leaves the badge's
root-space box unchanged (it is always the target's local `getBBox()` box),
and in the claim's scenario the badge lands at `{5, 5, 20, 10}` rather than
`{20, 15, 40, 20}`. -/
theorem codeBadgeBox_ignores_ancestor_transforms (t : Affine) (n : SvgNode) (i : String) :
    codeBadgeBox (.group t [n]) i = codeBadgeBox n i ∧
    codeBadgeBox scenarioScene "t" = some ⟨5, 5, 20, 10⟩ := by
  constructor
  · show findLocalBoxInList [n] i = findLocalBox n i
    unfold findLocalBoxInList
    cases h : findLocalBox n i <;> simp [h, findLocalBoxInList]
  · unfold codeBadgeBox scenarioScene
    unfold findLocalBox findLocalBoxInList
    simp [findLocalBox, findLocalBoxInList]

end Loto
